import Mathlib

/-!
Shallow embedding of the resilient-operation-execution core of the
aws-contact-sync repository: the circuit breaker and its manager
(`src/error_handling/circuit_breaker.py`), the error classifier
(`src/error_handling/error_classifier.py`) and the recovery manager
(`src/error_handling/recovery_manager.py`).

Python floats (wall-clock times, delays, multipliers) are modelled as
rationals `ℚ`.  Reads of the wall clock (`time.time()`,
`datetime.utcnow()`) and the random jitter draw (`random.uniform`) are
passed in explicitly as parameters or streams, and Python exceptions
become values of an explicit error type, so every definition is an
executable function of its inputs.
-/

/-- States of the circuit breaker (`CircuitState` in `circuit_breaker.py`).
`open_` stands for `CircuitState.OPEN` (`open` is a Lean keyword). -/
inductive CircuitState
  | closed
  | open_
  | half_open
  deriving DecidableEq, Repr

/-- `CircuitBreakerConfig` dataclass of `circuit_breaker.py`. -/
structure CircuitBreakerConfig where
  failure_threshold : Nat
  success_threshold : Nat
  timeout : ℚ
  reset_timeout : ℚ
  max_timeout : ℚ
  backoff_multiplier : ℚ
  deriving DecidableEq, Repr

/-- The dataclass defaults of `CircuitBreakerConfig`:
`failure_threshold=5, success_threshold=3, timeout=60.0,
reset_timeout=300.0, max_timeout=3600.0, backoff_multiplier=2.0`. -/
def CircuitBreakerConfig.default : CircuitBreakerConfig :=
  ⟨5, 3, 60, 300, 3600, 2⟩

/-- `CircuitBreakerStats` dataclass of `circuit_breaker.py`. -/
structure CircuitBreakerStats where
  total_requests : Nat
  successful_requests : Nat
  failed_requests : Nat
  rejected_requests : Nat
  state_changes : Nat
  last_failure_time : Option ℚ
  last_success_time : Option ℚ
  current_timeout : ℚ
  deriving DecidableEq, Repr

/-- The mutable fields of a `CircuitBreaker` instance: its config, stats,
state, the two consecutive counters and `_last_state_change`. -/
structure CircuitBreaker where
  config : CircuitBreakerConfig
  stats : CircuitBreakerStats
  state : CircuitState
  consecutive_failures : Nat
  consecutive_successes : Nat
  last_state_change : ℚ
  deriving DecidableEq, Repr

/-- `CircuitBreaker.__init__`: fresh stats, `current_timeout = config.timeout`,
state CLOSED, both counters zero, `_last_state_change = time.time()` (= `now`). -/
def CircuitBreaker.init (config : CircuitBreakerConfig) (now : ℚ) : CircuitBreaker :=
  { config := config
    stats := ⟨0, 0, 0, 0, 0, none, none, config.timeout⟩
    state := CircuitState.closed
    consecutive_failures := 0
    consecutive_successes := 0
    last_state_change := now }

/-- `CircuitBreaker._transition_to_open`. -/
def CircuitBreaker.transition_to_open (cb : CircuitBreaker) (now : ℚ) : CircuitBreaker :=
  if cb.state ≠ CircuitState.open_ then
    { cb with
      state := CircuitState.open_
      stats := { cb.stats with
        state_changes := cb.stats.state_changes + 1
        current_timeout := cb.config.timeout }
      last_state_change := now }
  else cb

/-- `CircuitBreaker._transition_to_half_open`. -/
def CircuitBreaker.transition_to_half_open (cb : CircuitBreaker) (now : ℚ) : CircuitBreaker :=
  if cb.state ≠ CircuitState.half_open then
    { cb with
      state := CircuitState.half_open
      stats := { cb.stats with state_changes := cb.stats.state_changes + 1 }
      last_state_change := now
      consecutive_successes := 0 }
  else cb

/-- `CircuitBreaker._transition_to_closed`. -/
def CircuitBreaker.transition_to_closed (cb : CircuitBreaker) (now : ℚ) : CircuitBreaker :=
  if cb.state ≠ CircuitState.closed then
    { cb with
      state := CircuitState.closed
      stats := { cb.stats with
        state_changes := cb.stats.state_changes + 1
        current_timeout := cb.config.timeout }
      last_state_change := now
      consecutive_failures := 0 }
  else cb

/-- `CircuitBreaker._record_success` (`now` is the `time.time()` read). -/
def CircuitBreaker.record_success (cb : CircuitBreaker) (now : ℚ) : CircuitBreaker :=
  let cb' : CircuitBreaker :=
    { cb with
      stats := { cb.stats with
        successful_requests := cb.stats.successful_requests + 1
        last_success_time := some now }
      consecutive_failures := 0
      consecutive_successes := cb.consecutive_successes + 1 }
  if cb'.state = CircuitState.half_open ∧
      cb'.config.success_threshold ≤ cb'.consecutive_successes then
    cb'.transition_to_closed now
  else cb'

/-- `CircuitBreaker._record_failure` (`now` is the `time.time()` read). -/
def CircuitBreaker.record_failure (cb : CircuitBreaker) (now : ℚ) : CircuitBreaker :=
  let cb' : CircuitBreaker :=
    { cb with
      stats := { cb.stats with
        failed_requests := cb.stats.failed_requests + 1
        last_failure_time := some now }
      consecutive_successes := 0
      consecutive_failures := cb.consecutive_failures + 1 }
  if cb'.config.failure_threshold ≤ cb'.consecutive_failures then
    cb'.transition_to_open now
  else cb'

/-- `CircuitBreaker._check_timeout_state`. -/
def CircuitBreaker.check_timeout_state (cb : CircuitBreaker) (now : ℚ) : CircuitBreaker :=
  if cb.state = CircuitState.open_ ∧
      cb.stats.current_timeout ≤ now - cb.last_state_change then
    cb.transition_to_half_open now
  else cb

/-- `CircuitBreaker._get_retry_after_time`. -/
def CircuitBreaker.get_retry_after_time (cb : CircuitBreaker) (now : ℚ) : ℚ :=
  if cb.state = CircuitState.open_ then
    max 0 (cb.stats.current_timeout - (now - cb.last_state_change))
  else 0

/-- Outcome of the locked admission section of `CircuitBreaker.call`:
either the request is rejected (raising `CircuitBreakerError` with the
given `retry_after`) or it is admitted and the wrapped function runs. -/
inductive Admission
  | rejected (retry_after : ℚ)
  | admitted
  deriving DecidableEq, Repr

/-- The locked admission section of `CircuitBreaker.call` (lines 106-122):
increment `total_requests`, run `_check_timeout_state`, and if the state is
still OPEN increment `rejected_requests` and reject with
`_get_retry_after_time`; otherwise admission. -/
def CircuitBreaker.admission (cb : CircuitBreaker) (now : ℚ) : CircuitBreaker × Admission :=
  let cb1 : CircuitBreaker :=
    { cb with stats := { cb.stats with total_requests := cb.stats.total_requests + 1 } }
  let cb2 := cb1.check_timeout_state now
  if cb2.state = CircuitState.open_ then
    ({ cb2 with stats := { cb2.stats with rejected_requests := cb2.stats.rejected_requests + 1 } },
      Admission.rejected (cb2.get_retry_after_time now))
  else (cb2, Admission.admitted)

/-- Result of `CircuitBreaker.call`: the wrapped function's value, a
`CircuitBreakerError` rejection, or the wrapped function's re-raised error. -/
inductive CallResult (ε α : Type)
  | ok (value : α)
  | breaker_open (retry_after : ℚ)
  | failed (error : ε)

/-- `CircuitBreaker.call`: admission at time `now`; if admitted, the wrapped
function runs (its behaviour is the `outcome` argument, finishing at time
`end_time`) and success or failure is recorded. -/
def CircuitBreaker.call {ε α : Type} (cb : CircuitBreaker) (now : ℚ)
    (outcome : Except ε α) (end_time : ℚ) : CircuitBreaker × CallResult ε α :=
  match cb.admission now with
  | (cb', Admission.rejected retry_after) => (cb', CallResult.breaker_open retry_after)
  | (cb', Admission.admitted) =>
    match outcome with
    | Except.ok v => (cb'.record_success end_time, CallResult.ok v)
    | Except.error e => (cb'.record_failure end_time, CallResult.failed e)

/-- The `overall_health` value computed by
`CircuitBreakerManager.get_health_status` from the observed per-breaker
states (each obtained through `get_state`). -/
def CircuitBreakerManager.get_health_status (states : List CircuitState) : String :=
  let total_breakers := states.length
  let open_breakers := states.countP (fun s => decide (s = CircuitState.open_))
  let half_open_breakers := states.countP (fun s => decide (s = CircuitState.half_open))
  if 0 < open_breakers then
    if open_breakers < total_breakers then "degraded" else "unhealthy"
  else if 0 < half_open_breakers then "recovering"
  else "healthy"

/-- `ErrorCategory` enum of `error_classifier.py`. -/
inductive ErrorCategory
  | transient
  | permanent
  | permission
  | configuration
  | rate_limit
  | network
  | unknown
  deriving DecidableEq, Repr

/-- `ErrorSeverity` enum of `error_classifier.py`. -/
inductive ErrorSeverity
  | low
  | medium
  | high
  | critical
  deriving DecidableEq, Repr

/-- `ErrorClassification` dataclass of `error_classifier.py`. -/
structure ErrorClassification where
  category : ErrorCategory
  severity : ErrorSeverity
  is_retryable : Bool
  should_circuit_break : Bool
  retry_delay_multiplier : ℚ
  max_retry_attempts : Option Nat
  recovery_action : Option String
  user_message : Option String
  deriving DecidableEq, Repr

/-- The `error.response` structure of a botocore `ClientError`.
`well_formed` carries the `Error.Code` / `Error.Message` strings (a
response without an `Error` entry surfaces as code `"Unknown"`);
`malformed` models a response object whose attribute access raises inside
`classify_error`, exercising its `except` clause. -/
inductive ClientResponse
  | well_formed (code : String) (message : String)
  | malformed
  deriving DecidableEq, Repr

/-- The exception values reaching `ErrorClassifier.classify_error`, split
by the `isinstance` tests the classifier performs: botocore `ClientError`,
other `BotoCoreError`s, the Python builtins `ConnectionError`,
`TimeoutError` and `ValueError`, and every remaining exception type. -/
inductive PyError
  | client_error (response : ClientResponse)
  | botocore_error (type_name : String)
  | connection_error (message : String)
  | timeout_error (message : String)
  | value_error (message : String)
  | other_error (type_name : String) (message : String)
  deriving DecidableEq, Repr

/-- ASCII lowercase of one character, modelling Python `str.lower()` as
applied to AWS error-code strings. -/
def lower_char (c : Char) : Char :=
  if 'A' ≤ c ∧ c ≤ 'Z' then Char.ofNat (c.toNat + 32) else c

/-- Character list of `s.lower()` for an error-code string `s`. -/
def lower_string (s : String) : List Char :=
  s.toList.map lower_char

/-- Does the second list start with the first one? -/
def starts_with : List Char → List Char → Bool
  | [], _ => true
  | _ :: _, [] => false
  | p :: ps, c :: cs => p = c && starts_with ps cs

/-- Does the second list contain the first as a contiguous substring?
Models Python's `pat in s`. -/
def contains_sub (pat : List Char) : List Char → Bool
  | [] => starts_with pat []
  | c :: cs => starts_with pat (c :: cs) || contains_sub pat cs

/-- Python `pat in error_code.lower()` for the classifier's heuristics. -/
def code_contains (code : String) (pat : String) : Bool :=
  contains_sub pat.toList (lower_string code)

namespace ErrorClassifier

/-- The `AWS_ERROR_MAPPINGS` table of `ErrorClassifier`, as an exact-match
lookup from error-code string to the precomputed classification. -/
def AWS_ERROR_MAPPINGS (code : String) : Option ErrorClassification :=
  if code = "ThrottlingException" then
    some ⟨.rate_limit, .medium, true, false, 2, some 5, some "exponential_backoff",
      some "Request was throttled, retrying with backoff"⟩
  else if code = "TooManyRequestsException" then
    some ⟨.rate_limit, .medium, true, false, 2, some 5, some "exponential_backoff",
      some "Too many requests, retrying with backoff"⟩
  else if code = "ServiceUnavailableException" then
    some ⟨.transient, .high, true, true, 3/2, some 3, some "circuit_breaker",
      some "AWS service temporarily unavailable"⟩
  else if code = "InternalServerError" then
    some ⟨.transient, .high, true, true, 3/2, some 3, some "circuit_breaker",
      some "AWS internal server error"⟩
  else if code = "RequestTimeout" then
    some ⟨.network, .medium, true, false, 1, some 3, some "retry",
      some "Request timed out"⟩
  else if code = "RequestTimeoutException" then
    some ⟨.network, .medium, true, false, 1, some 3, some "retry",
      some "Request timed out"⟩
  else if code = "AccessDeniedException" then
    some ⟨.permission, .high, false, false, 1, none, some "skip_account",
      some "Insufficient permissions to access account"⟩
  else if code = "UnauthorizedOperation" then
    some ⟨.permission, .high, false, false, 1, none, some "skip_account",
      some "Operation not authorized"⟩
  else if code = "ForbiddenException" then
    some ⟨.permission, .high, false, false, 1, none, some "skip_account",
      some "Access forbidden"⟩
  else if code = "ValidationException" then
    some ⟨.configuration, .medium, false, false, 1, none, some "log_and_skip",
      some "Invalid request parameters"⟩
  else if code = "InvalidParameterValue" then
    some ⟨.configuration, .medium, false, false, 1, none, some "log_and_skip",
      some "Invalid parameter value"⟩
  else if code = "ResourceNotFoundException" then
    some ⟨.configuration, .medium, false, false, 1, none, some "skip_account",
      some "Resource not found"⟩
  else if code = "AccountNotFoundException" then
    some ⟨.configuration, .medium, false, false, 1, none, some "skip_account",
      some "Account not found"⟩
  else if code = "ConflictException" then
    some ⟨.configuration, .medium, false, false, 1, none, some "log_and_skip",
      some "Resource conflict"⟩
  else if code = "AWSOrganizationsNotInUseException" then
    some ⟨.configuration, .critical, false, true, 1, none, some "abort_operation",
      some "AWS Organizations is not enabled"⟩
  else if code = "OrganizationNotFoundException" then
    some ⟨.configuration, .critical, false, true, 1, none, some "abort_operation",
      some "Organization not found"⟩
  else none

/-- `ErrorClassifier._classify_client_error`: exact-match table lookup,
then the substring heuristics on the lowered code, then the
unknown-AWS-error default. -/
def classify_client_error (code : String) (_message : String) : ErrorClassification :=
  match AWS_ERROR_MAPPINGS code with
  | some classification => classification
  | none =>
    if code_contains code "throttl" || code_contains code "limit" then
      ⟨.rate_limit, .medium, true, false, 2, some 5, some "exponential_backoff",
        some ("Rate limiting error: " ++ code)⟩
    else if code_contains code "access" || code_contains code "denied" ||
        code_contains code "unauthorized" then
      ⟨.permission, .high, false, false, 1, none, some "skip_account",
        some ("Permission error: " ++ code)⟩
    else if code_contains code "invalid" || code_contains code "validation" then
      ⟨.configuration, .medium, false, false, 1, none, some "log_and_skip",
        some ("Configuration error: " ++ code)⟩
    else
      ⟨.unknown, .medium, true, false, 1, some 2, some "retry",
        some ("Unknown AWS error: " ++ code)⟩

/-- `ErrorClassifier._classify_botocore_error`. -/
def classify_botocore_error (type_name : String) : ErrorClassification :=
  ⟨.network, .medium, true, false, 1, some 3, some "retry",
    some ("Network error: " ++ type_name)⟩

/-- `ErrorClassifier._classify_unknown_error`. -/
def classify_unknown_error (type_name : String) (_message : String) : ErrorClassification :=
  ⟨.unknown, .medium, false, false, 1, none, some "log_and_skip",
    some ("Unknown error: " ++ type_name)⟩

/-- `ErrorClassifier._get_default_classification`: the safe fallback
returned when classification itself raises. -/
def get_default_classification : ErrorClassification :=
  ⟨.unknown, .medium, false, false, 1, none, some "log_and_skip",
    some "Unclassified error occurred"⟩

/-- The `try` body of `ErrorClassifier.classify_error`: the isinstance
dispatch.  The only step of the body that can itself raise is the access
to a malformed `ClientError.response`, modelled as `Except.error ()`. -/
def classify_error_body (error : PyError) : Except Unit ErrorClassification :=
  match error with
  | PyError.client_error (ClientResponse.well_formed code message) =>
      Except.ok (classify_client_error code message)
  | PyError.client_error ClientResponse.malformed => Except.error ()
  | PyError.botocore_error t => Except.ok (classify_botocore_error t)
  | PyError.connection_error _ =>
      Except.ok ⟨.network, .medium, true, false, 1, some 3, some "retry",
        some "Network connectivity issue"⟩
  | PyError.timeout_error _ =>
      Except.ok ⟨.network, .medium, true, false, 1, some 3, some "retry",
        some "Network connectivity issue"⟩
  | PyError.value_error _ =>
      Except.ok ⟨.configuration, .medium, false, false, 1, none, some "log_and_skip",
        some "Invalid data format"⟩
  | PyError.other_error t m => Except.ok (classify_unknown_error t m)

/-- `ErrorClassifier.classify_error`: the `try` body, with any internal
failure caught and replaced by `_get_default_classification`. -/
def classify_error (error : PyError) : ErrorClassification :=
  match classify_error_body error with
  | Except.ok c => c
  | Except.error _ => get_default_classification

end ErrorClassifier

/-- `RecoveryConfig` dataclass of `recovery_manager.py`. -/
structure RecoveryConfig where
  max_retry_attempts : Nat
  base_retry_delay : ℚ
  max_retry_delay : ℚ
  jitter_factor : ℚ
  circuit_breaker_enabled : Bool
  circuit_breaker_failure_threshold : Nat
  circuit_breaker_timeout : ℚ
  enable_exponential_backoff : Bool
  enable_jitter : Bool
  deriving DecidableEq, Repr

/-- The dataclass defaults of `RecoveryConfig`. -/
def RecoveryConfig.default : RecoveryConfig :=
  ⟨3, 2, 60, 1/10, true, 5, 60, true, true⟩

/-- The `CircuitBreakerConfig` that `execute_with_recovery` builds for its
operation: the recovery config's failure threshold and timeout, dataclass
defaults for every other field. -/
def RecoveryConfig.cb_config (cfg : RecoveryConfig) : CircuitBreakerConfig :=
  ⟨cfg.circuit_breaker_failure_threshold, 3, cfg.circuit_breaker_timeout, 300, 3600, 2⟩

/-- An error observed by the recovery loop: a `CircuitBreakerError`
rejection or an exception raised by the operation itself. -/
inductive RaisedError
  | breaker_open (retry_after : ℚ)
  | op_error (error : PyError)
  deriving DecidableEq, Repr

/-- `RecoveryAttempt` dataclass of `recovery_manager.py` (the
`datetime.utcnow()` timestamp is the model clock). -/
structure RecoveryAttempt where
  attempt_number : Nat
  timestamp : ℚ
  error : Option RaisedError
  success : Bool
  delay_before_attempt : ℚ
  recovery_action : Option String
  deriving DecidableEq, Repr

/-- Dataclass defaults of `RecoveryAttempt` (used only as the `getLastD`
fallback; the loop never reads it on a reachable path). -/
def RecoveryAttempt.default : RecoveryAttempt :=
  ⟨0, 0, none, false, 0, none⟩

/-- `RecoveryResult` dataclass of `recovery_manager.py`. -/
structure RecoveryResult (α : Type) where
  success : Bool
  result : Option α
  error : Option RaisedError
  attempts : List RecoveryAttempt
  total_duration : ℚ
  recovery_strategy : Option String

namespace RecoveryManager

/-- The pre-jitter part of `RecoveryManager._calculate_retry_delay`:
exponential `base * multiplier^(attempt_num - 1)` or linear
`base * multiplier * attempt_num`, capped at `max_delay`. -/
def pre_jitter_delay (cfg : RecoveryConfig) (attempt_num : Nat)
    (classification : ErrorClassification) : ℚ :=
  let multiplier := classification.retry_delay_multiplier
  let delay :=
    if cfg.enable_exponential_backoff then
      cfg.base_retry_delay * multiplier ^ (attempt_num - 1)
    else
      cfg.base_retry_delay * multiplier * (attempt_num : ℚ)
  min delay cfg.max_retry_delay

/-- `RecoveryManager._calculate_retry_delay`.  `jitter` is the value the
source draws as `random.uniform(-delay*jitter_factor, +delay*jitter_factor)`;
with jitter enabled the result is clamped below by `0.1`. -/
def calculate_retry_delay (cfg : RecoveryConfig) (attempt_num : Nat)
    (classification : ErrorClassification) (jitter : ℚ) : ℚ :=
  let delay := pre_jitter_delay cfg attempt_num classification
  if cfg.enable_jitter then max (1/10) (delay + jitter) else delay

/-- One guarded invocation inside `execute_with_recovery`: through the
circuit breaker when one is in use (`circuit_breaker.call(...)`), directly
otherwise. -/
def breaker_step {α : Type} (breaker : Option CircuitBreaker) (now : ℚ)
    (outcome : Except PyError α) (end_time : ℚ) :
    Option CircuitBreaker × CallResult PyError α :=
  match breaker with
  | some cb =>
    match cb.call now outcome end_time with
    | (cb', r) => (some cb', r)
  | none =>
    match outcome with
    | Except.ok v => (none, CallResult.ok v)
    | Except.error e => (none, CallResult.failed e)

/-- The `for attempt_num in range(1, max_retry_attempts + 1)` loop of
`RecoveryManager.execute_with_recovery`.  `fuel` counts the remaining loop
iterations (initially `max_retry_attempts`), `behav k` is the outcome of
the `k`-th invocation of the operation, `durs k` its running time, and
`jit k` the jitter drawn for the delay computed after it.  Both `break`
statements and the natural loop exit reach the common
`retry_exhausted` return. -/
def recovery_loop {α : Type} (cfg : RecoveryConfig)
    (behav : Nat → Except PyError α) (durs : Nat → ℚ) (jit : Nat → ℚ) :
    (fuel : Nat) → (attempt_num : Nat) → (breaker : Option CircuitBreaker) →
    (inv : Nat) → (now : ℚ) → (start_time : ℚ) →
    (attempts : List RecoveryAttempt) → (last_error : Option PyError) →
    RecoveryResult α
  | 0, _, _, _, now, start_time, attempts, last_error =>
    { success := false
      result := none
      error := last_error.map RaisedError.op_error
      attempts := attempts
      total_duration := now - start_time
      recovery_strategy := some "retry_exhausted" }
  | fuel + 1, attempt_num, breaker, inv, now, start_time, attempts, _last_error =>
    let end_time := now + durs inv
    match breaker_step breaker now (behav inv) end_time with
    | (_, CallResult.breaker_open retry_after) =>
      let attempt : RecoveryAttempt :=
        { attempt_number := attempt_num
          timestamp := now
          error := some (RaisedError.breaker_open retry_after)
          success := false
          delay_before_attempt := 0
          recovery_action := some "circuit_breaker_open" }
      { success := false
        result := none
        error := some (RaisedError.breaker_open retry_after)
        attempts := attempts ++ [attempt]
        total_duration := now - start_time
        recovery_strategy := some "circuit_breaker_blocked" }
    | (_, CallResult.ok v) =>
      let attempt : RecoveryAttempt :=
        { attempt_number := attempt_num
          timestamp := end_time
          error := none
          success := true
          delay_before_attempt :=
            if attempt_num = 1 then 0
            else (attempts.getLastD RecoveryAttempt.default).delay_before_attempt
          recovery_action := none }
      { success := true
        result := some v
        error := none
        attempts := attempts ++ [attempt]
        total_duration := end_time - start_time
        recovery_strategy := some (if 1 < attempt_num then "retry_success" else "direct_success") }
    | (breaker', CallResult.failed e) =>
      let classification := ErrorClassifier.classify_error e
      if classification.is_retryable = false ∨ cfg.max_retry_attempts ≤ attempt_num then
        let attempt : RecoveryAttempt :=
          { attempt_number := attempt_num
            timestamp := end_time
            error := some (RaisedError.op_error e)
            success := false
            delay_before_attempt := 0
            recovery_action := classification.recovery_action }
        { success := false
          result := none
          error := some (RaisedError.op_error e)
          attempts := attempts ++ [attempt]
          total_duration := end_time - start_time
          recovery_strategy := some "retry_exhausted" }
      else
        let delay := calculate_retry_delay cfg attempt_num classification (jit inv)
        let attempt : RecoveryAttempt :=
          { attempt_number := attempt_num
            timestamp := end_time
            error := some (RaisedError.op_error e)
            success := false
            delay_before_attempt := delay
            recovery_action := classification.recovery_action }
        recovery_loop cfg behav durs jit fuel (attempt_num + 1) breaker' (inv + 1)
          (end_time + delay) start_time (attempts ++ [attempt]) (some e)

/-- `RecoveryManager.execute_with_recovery`.  `breaker0` is the breaker
returned by `get_breaker(operation_name, cb_config)` — `CircuitBreaker.init
cfg.cb_config t` when the name is new in the registry — and is consulted
only when `circuit_breaker_enabled`. -/
def execute_with_recovery {α : Type} (cfg : RecoveryConfig)
    (behav : Nat → Except PyError α) (durs : Nat → ℚ) (jit : Nat → ℚ)
    (breaker0 : CircuitBreaker) (start_time : ℚ) : RecoveryResult α :=
  recovery_loop cfg behav durs jit cfg.max_retry_attempts 1
    (if cfg.circuit_breaker_enabled then some breaker0 else none)
    0 start_time start_time [] none

end RecoveryManager



/-- Iterated failing calls through the breaker: `fail_calls cb τ n` performs
`n` calls of an always-raising operation, the `i`-th at time `τ i` (the
operation is instantaneous, so the call starts and ends at `τ i`). -/
def CircuitBreaker.fail_calls (cb : CircuitBreaker) (τ : Nat → ℚ) : Nat → CircuitBreaker
  | 0 => cb
  | n + 1 =>
    ((CircuitBreaker.fail_calls cb τ n).call (τ n) (Except.error () : Except Unit Unit) (τ n)).1

/-- Breaker config used for the HALF_OPEN failure scenario:
`failure_threshold = 3`, `success_threshold = 2`, `timeout = 1`. -/
def c1_config : CircuitBreakerConfig := ⟨3, 2, 1, 300, 3600, 2⟩

/-- A fresh breaker after three consecutive failures at time 0. -/
def c1_after_failures : CircuitBreaker :=
  CircuitBreaker.fail_calls (CircuitBreaker.init c1_config 0) (fun _ => 0) 3

/-- The same breaker after one successful trial call at time 2 (past the
1-second timeout, so the call finds the breaker HALF_OPEN and is admitted). -/
def c1_after_success : CircuitBreaker :=
  (c1_after_failures.call 2 (Except.ok () : Except Unit Unit) 2).1

/-- The same breaker after one more failing call at time 2, still in
HALF_OPEN with exactly one prior consecutive success. -/
def c1_final : CircuitBreaker :=
  (c1_after_success.call 2 (Except.error () : Except Unit Unit) 2).1

/-- Recovery config with `max_retry_attempts = 2` and the circuit breaker
disabled (base delay 0, no jitter). -/
def c2_disabled_config : RecoveryConfig := ⟨2, 0, 60, 1/10, false, 5, 60, true, false⟩

/-- Recovery config with `max_retry_attempts = 2`, circuit breaker enabled
with `circuit_breaker_failure_threshold = 1`, base delay 0, no jitter. -/
def c2cex_config : RecoveryConfig := ⟨2, 0, 60, 1/10, true, 1, 60, true, false⟩

/-- An operation that raises a (retryable) builtin `ConnectionError` on
every invocation. -/
def c2cex_behav : Nat → Except PyError Unit :=
  fun _ => Except.error (PyError.connection_error "refused")

/-- Instantaneous operation: every invocation takes 0 seconds. -/
def c2cex_durs : Nat → ℚ := fun _ => 0

/-- Jitter draws (unused: jitter is disabled in `c2cex_config`). -/
def c2cex_jit : Nat → ℚ := fun _ => 0

/-- The run of `execute_with_recovery` under `c2cex_config` against the
always-failing retryable operation, starting from a fresh breaker. -/
def c2cex_result : RecoveryResult Unit :=
  RecoveryManager.execute_with_recovery c2cex_config c2cex_behav c2cex_durs c2cex_jit
    (CircuitBreaker.init c2cex_config.cb_config 0) 0

/-- The breaker state after the run's first (admitted, failing) call: the
single failure reaches the threshold 1, so the breaker is OPEN. -/
def c2cex_breaker1 : CircuitBreaker :=
  ((CircuitBreaker.init c2cex_config.cb_config 0).call 0 (c2cex_behav 0)
    (0 + c2cex_durs 0)).1

/-- Breaker config with `failure_threshold = 1` for the opening witness. -/
def c3_config : CircuitBreakerConfig := ⟨1, 3, 60, 300, 3600, 2⟩

/-- An OPEN breaker with default config that entered OPEN at time 0 with a
60-second current timeout. -/
def c4_breaker : CircuitBreaker :=
  ⟨CircuitBreakerConfig.default, ⟨0, 0, 0, 0, 0, none, none, 60⟩, CircuitState.open_, 5, 0, 0⟩

lemma CircuitBreaker.check_timeout_state_of_not_open (cb : CircuitBreaker) (now : ℚ)
    (h : cb.state ≠ CircuitState.open_) : cb.check_timeout_state now = cb := by
  unfold CircuitBreaker.check_timeout_state
  exact if_neg (fun hc => h hc.1)

lemma CircuitBreaker.check_timeout_state_of_early (cb : CircuitBreaker) (now : ℚ)
    (h : now - cb.last_state_change < cb.stats.current_timeout) :
    cb.check_timeout_state now = cb := by
  unfold CircuitBreaker.check_timeout_state
  exact if_neg (fun hc => absurd hc.2 (not_le.mpr h))

lemma CircuitBreaker.check_timeout_state_of_late (cb : CircuitBreaker) (now : ℚ)
    (h1 : cb.state = CircuitState.open_)
    (h2 : cb.stats.current_timeout ≤ now - cb.last_state_change) :
    cb.check_timeout_state now = cb.transition_to_half_open now := by
  unfold CircuitBreaker.check_timeout_state
  exact if_pos ⟨h1, h2⟩

lemma CircuitBreaker.admit_of_not_open (cb : CircuitBreaker) (now : ℚ)
    (h : cb.state ≠ CircuitState.open_) :
    cb.admission now =
      ({ cb with stats := { cb.stats with total_requests := cb.stats.total_requests + 1 } },
        Admission.admitted) := by
  have hb : ({ cb with stats := { cb.stats with
      total_requests := cb.stats.total_requests + 1 } } : CircuitBreaker).state ≠
      CircuitState.open_ := h
  simp only [CircuitBreaker.admission]
  rw [CircuitBreaker.check_timeout_state_of_not_open _ now hb]
  exact if_neg hb

lemma CircuitBreaker.admit_of_open_early (cb : CircuitBreaker) (now : ℚ)
    (h1 : cb.state = CircuitState.open_)
    (h2 : now - cb.last_state_change < cb.stats.current_timeout) :
    cb.admission now =
      ({ cb with stats := { cb.stats with
            total_requests := cb.stats.total_requests + 1
            rejected_requests := cb.stats.rejected_requests + 1 } },
        Admission.rejected (max 0 (cb.stats.current_timeout - (now - cb.last_state_change)))) := by
  have hb1 : ({ cb with stats := { cb.stats with
      total_requests := cb.stats.total_requests + 1 } } : CircuitBreaker).state =
      CircuitState.open_ := h1
  have hb2 : now - ({ cb with stats := { cb.stats with
      total_requests := cb.stats.total_requests + 1 } } : CircuitBreaker).last_state_change <
      ({ cb with stats := { cb.stats with
        total_requests := cb.stats.total_requests + 1 } } : CircuitBreaker).stats.current_timeout := h2
  simp only [CircuitBreaker.admission]
  rw [CircuitBreaker.check_timeout_state_of_early _ now hb2, if_pos hb1]
  unfold CircuitBreaker.get_retry_after_time
  rw [if_pos hb1]

lemma CircuitBreaker.transition_to_half_open_eq (cb : CircuitBreaker) (now : ℚ)
    (h : cb.state ≠ CircuitState.half_open) :
    cb.transition_to_half_open now =
      { cb with
        state := CircuitState.half_open
        stats := { cb.stats with state_changes := cb.stats.state_changes + 1 }
        last_state_change := now
        consecutive_successes := 0 } := by
  unfold CircuitBreaker.transition_to_half_open
  exact if_pos h

lemma CircuitBreaker.admit_of_open_late (cb : CircuitBreaker) (now : ℚ)
    (h1 : cb.state = CircuitState.open_)
    (h2 : cb.stats.current_timeout ≤ now - cb.last_state_change) :
    cb.admission now =
      ({ cb with
          state := CircuitState.half_open
          stats := { cb.stats with
            total_requests := cb.stats.total_requests + 1
            state_changes := cb.stats.state_changes + 1 }
          last_state_change := now
          consecutive_successes := 0 },
        Admission.admitted) := by
  have hb1 : ({ cb with stats := { cb.stats with
      total_requests := cb.stats.total_requests + 1 } } : CircuitBreaker).state =
      CircuitState.open_ := h1
  have hb2 : ({ cb with stats := { cb.stats with
      total_requests := cb.stats.total_requests + 1 } } : CircuitBreaker).stats.current_timeout ≤
      now - ({ cb with stats := { cb.stats with
        total_requests := cb.stats.total_requests + 1 } } : CircuitBreaker).last_state_change := h2
  have hb3 : ({ cb with stats := { cb.stats with
      total_requests := cb.stats.total_requests + 1 } } : CircuitBreaker).state ≠
      CircuitState.half_open := by rw [hb1]; decide
  simp only [CircuitBreaker.admission]
  rw [CircuitBreaker.check_timeout_state_of_late _ now hb1 hb2,
    CircuitBreaker.transition_to_half_open_eq _ now hb3]
  exact if_neg (fun hc => CircuitState.noConfusion hc)

lemma CircuitBreaker.transition_to_open_eq (cb : CircuitBreaker) (now : ℚ)
    (h : cb.state ≠ CircuitState.open_) :
    cb.transition_to_open now =
      { cb with
        state := CircuitState.open_
        stats := { cb.stats with
          state_changes := cb.stats.state_changes + 1
          current_timeout := cb.config.timeout }
        last_state_change := now } := by
  unfold CircuitBreaker.transition_to_open
  exact if_pos h

lemma CircuitBreaker.record_failure_of_below (cb : CircuitBreaker) (now : ℚ)
    (h : cb.consecutive_failures + 1 < cb.config.failure_threshold) :
    cb.record_failure now =
      { cb with
        stats := { cb.stats with
          failed_requests := cb.stats.failed_requests + 1
          last_failure_time := some now }
        consecutive_successes := 0
        consecutive_failures := cb.consecutive_failures + 1 } := by
  simp only [CircuitBreaker.record_failure]
  exact if_neg (not_le.mpr h)

lemma CircuitBreaker.record_failure_of_reach (cb : CircuitBreaker) (now : ℚ)
    (h1 : cb.config.failure_threshold ≤ cb.consecutive_failures + 1)
    (h2 : cb.state ≠ CircuitState.open_) :
    cb.record_failure now =
      { cb with
        state := CircuitState.open_
        stats := { cb.stats with
          failed_requests := cb.stats.failed_requests + 1
          last_failure_time := some now
          state_changes := cb.stats.state_changes + 1
          current_timeout := cb.config.timeout }
        consecutive_successes := 0
        consecutive_failures := cb.consecutive_failures + 1
        last_state_change := now } := by
  have hb2 : ({ cb with
      stats := { cb.stats with
        failed_requests := cb.stats.failed_requests + 1
        last_failure_time := some now }
      consecutive_successes := 0
      consecutive_failures := cb.consecutive_failures + 1 } : CircuitBreaker).state ≠
      CircuitState.open_ := h2
  simp only [CircuitBreaker.record_failure]
  rw [if_pos h1, CircuitBreaker.transition_to_open_eq _ now hb2]

lemma CircuitBreaker.call_of_rejected {ε α : Type} (cb cb' : CircuitBreaker) (now r : ℚ)
    (h : cb.admission now = (cb', Admission.rejected r)) (outcome : Except ε α) (et : ℚ) :
    cb.call now outcome et = (cb', CallResult.breaker_open r) := by
  unfold CircuitBreaker.call
  rw [h]

lemma CircuitBreaker.call_ok_of_admitted {ε α : Type} (cb cb' : CircuitBreaker) (now : ℚ)
    (h : cb.admission now = (cb', Admission.admitted)) (v : α) (et : ℚ) :
    cb.call now (Except.ok v : Except ε α) et = (cb'.record_success et, CallResult.ok v) := by
  unfold CircuitBreaker.call
  rw [h]

lemma CircuitBreaker.call_error_of_admitted {ε α : Type} (cb cb' : CircuitBreaker) (now : ℚ)
    (h : cb.admission now = (cb', Admission.admitted)) (e : ε) (et : ℚ) :
    cb.call now (Except.error e : Except ε α) et = (cb'.record_failure et, CallResult.failed e) := by
  unfold CircuitBreaker.call
  rw [h]

lemma CircuitBreaker.call_failed_of_closed_below {ε α : Type} (cb : CircuitBreaker) (t : ℚ)
    (e : ε) (hs : cb.state = CircuitState.closed)
    (h : cb.consecutive_failures + 1 < cb.config.failure_threshold) :
    cb.call t (Except.error e : Except ε α) t =
      ({ cb with
          stats := { cb.stats with
            total_requests := cb.stats.total_requests + 1
            failed_requests := cb.stats.failed_requests + 1
            last_failure_time := some t }
          consecutive_successes := 0
          consecutive_failures := cb.consecutive_failures + 1 },
        CallResult.failed e) := by
  have hadm := CircuitBreaker.admit_of_not_open cb t
    (fun hc => CircuitState.noConfusion (hs ▸ hc))
  have hb : ({ cb with stats := { cb.stats with
      total_requests := cb.stats.total_requests + 1 } } : CircuitBreaker).consecutive_failures + 1 <
      ({ cb with stats := { cb.stats with
        total_requests := cb.stats.total_requests + 1 } } : CircuitBreaker).config.failure_threshold := h
  rw [CircuitBreaker.call_error_of_admitted _ _ _ hadm e t,
    CircuitBreaker.record_failure_of_below _ t hb]

lemma CircuitBreaker.call_failed_of_closed_reach {ε α : Type} (cb : CircuitBreaker) (t : ℚ)
    (e : ε) (hs : cb.state = CircuitState.closed)
    (h : cb.config.failure_threshold ≤ cb.consecutive_failures + 1) :
    cb.call t (Except.error e : Except ε α) t =
      ({ cb with
          state := CircuitState.open_
          stats := { cb.stats with
            total_requests := cb.stats.total_requests + 1
            failed_requests := cb.stats.failed_requests + 1
            last_failure_time := some t
            state_changes := cb.stats.state_changes + 1
            current_timeout := cb.config.timeout }
          consecutive_successes := 0
          consecutive_failures := cb.consecutive_failures + 1
          last_state_change := t },
        CallResult.failed e) := by
  have hadm := CircuitBreaker.admit_of_not_open cb t
    (fun hc => CircuitState.noConfusion (hs ▸ hc))
  have hb : ({ cb with stats := { cb.stats with
      total_requests := cb.stats.total_requests + 1 } } : CircuitBreaker).config.failure_threshold ≤
      ({ cb with stats := { cb.stats with
        total_requests := cb.stats.total_requests + 1 } } : CircuitBreaker).consecutive_failures + 1 := h
  have hbs : ({ cb with stats := { cb.stats with
      total_requests := cb.stats.total_requests + 1 } } : CircuitBreaker).state ≠
      CircuitState.open_ := fun hc => CircuitState.noConfusion (hs ▸ hc)
  rw [CircuitBreaker.call_error_of_admitted _ _ _ hadm e t,
    CircuitBreaker.record_failure_of_reach _ t hb hbs]

lemma CircuitBreaker.fail_calls_closed (cfg : CircuitBreakerConfig) (t0 : ℚ) (τ : Nat → ℚ) :
    ∀ n, n < cfg.failure_threshold →
      (CircuitBreaker.fail_calls (CircuitBreaker.init cfg t0) τ n).state = CircuitState.closed ∧
      (CircuitBreaker.fail_calls (CircuitBreaker.init cfg t0) τ n).consecutive_failures = n ∧
      (CircuitBreaker.fail_calls (CircuitBreaker.init cfg t0) τ n).config = cfg := by
  intro n
  induction n with
  | zero => exact fun _ => ⟨rfl, rfl, rfl⟩
  | succ n ih =>
    intro hn
    obtain ⟨hs, hf, hc⟩ := ih (Nat.lt_of_succ_lt hn)
    have hstep := @CircuitBreaker.call_failed_of_closed_below Unit Unit
      (CircuitBreaker.fail_calls (CircuitBreaker.init cfg t0) τ n) (τ n) () hs
      (by rw [hf, hc]; exact hn)
    refine ⟨?_, ?_, ?_⟩
    · show ((CircuitBreaker.fail_calls (CircuitBreaker.init cfg t0) τ n).call (τ n)
        (Except.error () : Except Unit Unit) (τ n)).1.state = CircuitState.closed
      rw [hstep]
      exact hs
    · show ((CircuitBreaker.fail_calls (CircuitBreaker.init cfg t0) τ n).call (τ n)
        (Except.error () : Except Unit Unit) (τ n)).1.consecutive_failures = n + 1
      rw [hstep]
      show (CircuitBreaker.fail_calls (CircuitBreaker.init cfg t0) τ n).consecutive_failures + 1 = n + 1
      rw [hf]
    · show ((CircuitBreaker.fail_calls (CircuitBreaker.init cfg t0) τ n).call (τ n)
        (Except.error () : Except Unit Unit) (τ n)).1.config = cfg
      rw [hstep]
      exact hc

lemma RecoveryManager.breaker_step_some {α : Type} (cb : CircuitBreaker) (now : ℚ)
    (outcome : Except PyError α) (et : ℚ) :
    RecoveryManager.breaker_step (some cb) now outcome et =
      (some (cb.call now outcome et).1, (cb.call now outcome et).2) := rfl

lemma RecoveryManager.recovery_loop_step_failed_retry {α : Type} (cfg : RecoveryConfig)
    (behav : Nat → Except PyError α) (durs : Nat → ℚ) (jit : Nat → ℚ)
    (fuel attempt_num : Nat) (breaker b' : Option CircuitBreaker) (inv : Nat)
    (now start_time : ℚ) (attempts : List RecoveryAttempt) (last_error : Option PyError)
    (e : PyError)
    (hbs : RecoveryManager.breaker_step breaker now (behav inv) (now + durs inv) =
      (b', CallResult.failed e))
    (hretry : (ErrorClassifier.classify_error e).is_retryable = true)
    (hlast : attempt_num < cfg.max_retry_attempts) :
    RecoveryManager.recovery_loop cfg behav durs jit (fuel + 1) attempt_num breaker inv now
        start_time attempts last_error =
      RecoveryManager.recovery_loop cfg behav durs jit fuel (attempt_num + 1) b' (inv + 1)
        (now + durs inv +
          RecoveryManager.calculate_retry_delay cfg attempt_num
            (ErrorClassifier.classify_error e) (jit inv))
        start_time
        (attempts ++ [⟨attempt_num, now + durs inv, some (RaisedError.op_error e), false,
          RecoveryManager.calculate_retry_delay cfg attempt_num
            (ErrorClassifier.classify_error e) (jit inv),
          (ErrorClassifier.classify_error e).recovery_action⟩])
        (some e) := by
  simp only [RecoveryManager.recovery_loop, hbs]
  rw [if_neg (by
    rintro (hl | hr)
    · rw [hretry] at hl
      exact Bool.noConfusion hl
    · exact absurd hr (Nat.not_le.mpr hlast))]

lemma RecoveryManager.recovery_loop_step_blocked {α : Type} (cfg : RecoveryConfig)
    (behav : Nat → Except PyError α) (durs : Nat → ℚ) (jit : Nat → ℚ)
    (fuel attempt_num : Nat) (breaker b' : Option CircuitBreaker) (inv : Nat)
    (now start_time : ℚ) (attempts : List RecoveryAttempt) (last_error : Option PyError)
    (ra : ℚ)
    (hbs : RecoveryManager.breaker_step breaker now (behav inv) (now + durs inv) =
      (b', CallResult.breaker_open ra)) :
    RecoveryManager.recovery_loop cfg behav durs jit (fuel + 1) attempt_num breaker inv now
        start_time attempts last_error =
      { success := false
        result := none
        error := some (RaisedError.breaker_open ra)
        attempts := attempts ++ [⟨attempt_num, now, some (RaisedError.breaker_open ra), false,
          0, some "circuit_breaker_open"⟩]
        total_duration := now - start_time
        recovery_strategy := some "circuit_breaker_blocked" } := by
  simp only [RecoveryManager.recovery_loop, hbs]

lemma recovery_loop_attempts_spec {α : Type} (cfg : RecoveryConfig)
    (behav : Nat → Except PyError α) (durs : Nat → ℚ) (jit : Nat → ℚ) :
    ∀ (fuel attempt_num : Nat) (breaker : Option CircuitBreaker) (inv : Nat)
      (now start_time : ℚ) (attempts : List RecoveryAttempt) (last_error : Option PyError),
      (RecoveryManager.recovery_loop cfg behav durs jit fuel attempt_num breaker inv now
          start_time attempts last_error).attempts.length ≤ attempts.length + fuel ∧
      (RecoveryManager.recovery_loop cfg behav durs jit fuel attempt_num breaker inv now
          start_time attempts last_error).attempts.countP (fun r => r.success) =
        attempts.countP (fun r => r.success) +
          (if (RecoveryManager.recovery_loop cfg behav durs jit fuel attempt_num breaker inv now
              start_time attempts last_error).success = true then 1 else 0) := by
  intro fuel
  induction fuel with
  | zero =>
    intro attempt_num breaker inv now start_time attempts last_error
    simp [RecoveryManager.recovery_loop]
  | succ fuel ih =>
    intro attempt_num breaker inv now start_time attempts last_error
    rcases hbs : RecoveryManager.breaker_step breaker now (behav inv) (now + durs inv) with
      ⟨b', v | ra | e⟩
    · simp [RecoveryManager.recovery_loop, hbs, List.countP_append, List.countP_cons]
    · simp [RecoveryManager.recovery_loop, hbs, List.countP_append, List.countP_cons]
    · by_cases hcond : (ErrorClassifier.classify_error e).is_retryable = false ∨
        cfg.max_retry_attempts ≤ attempt_num
      · simp only [RecoveryManager.recovery_loop, hbs]
        rw [if_pos hcond]
        simp [List.countP_append, List.countP_cons]
      · simp only [RecoveryManager.recovery_loop, hbs]
        rw [if_neg hcond]
        obtain ⟨ih1, ih2⟩ := ih (attempt_num + 1) b' (inv + 1)
          (now + durs inv +
            RecoveryManager.calculate_retry_delay cfg attempt_num
              (ErrorClassifier.classify_error e) (jit inv))
          start_time
          (attempts ++ [⟨attempt_num, now + durs inv, some (RaisedError.op_error e), false,
            RecoveryManager.calculate_retry_delay cfg attempt_num
              (ErrorClassifier.classify_error e) (jit inv),
            (ErrorClassifier.classify_error e).recovery_action⟩])
          (some e)
        constructor
        · refine le_trans ih1 ?_
          simp only [List.length_append, List.length_cons, List.length_nil]
          omega
        · rw [ih2]
          simp [List.countP_append, List.countP_cons]

lemma recovery_loop_error_spec {α : Type} (cfg : RecoveryConfig)
    (behav : Nat → Except PyError α) (durs : Nat → ℚ) (jit : Nat → ℚ) :
    ∀ (fuel attempt_num : Nat) (breaker : Option CircuitBreaker) (inv : Nat)
      (now start_time : ℚ) (attempts : List RecoveryAttempt) (last_error : Option PyError),
      attempts.getLast?.bind (fun r => r.error) = last_error.map RaisedError.op_error →
      (RecoveryManager.recovery_loop cfg behav durs jit fuel attempt_num breaker inv now
          start_time attempts last_error).success = false →
      (RecoveryManager.recovery_loop cfg behav durs jit fuel attempt_num breaker inv now
          start_time attempts last_error).error =
        (RecoveryManager.recovery_loop cfg behav durs jit fuel attempt_num breaker inv now
          start_time attempts last_error).attempts.getLast?.bind (fun r => r.error) := by
  intro fuel
  induction fuel with
  | zero =>
    intro attempt_num breaker inv now start_time attempts last_error hconsistent _
    simp [RecoveryManager.recovery_loop, hconsistent]
  | succ fuel ih =>
    intro attempt_num breaker inv now start_time attempts last_error hconsistent
    rcases hbs : RecoveryManager.breaker_step breaker now (behav inv) (now + durs inv) with
      ⟨b', v | ra | e⟩
    · simp [RecoveryManager.recovery_loop, hbs]
    · simp [RecoveryManager.recovery_loop, hbs]
    · by_cases hcond : (ErrorClassifier.classify_error e).is_retryable = false ∨
        cfg.max_retry_attempts ≤ attempt_num
      · intro _
        simp only [RecoveryManager.recovery_loop, hbs]
        rw [if_pos hcond]
        simp
      · intro hsucc
        simp only [RecoveryManager.recovery_loop, hbs] at hsucc ⊢
        rw [if_neg hcond] at hsucc ⊢
        exact ih (attempt_num + 1) b' (inv + 1) _ start_time _ (some e) (by simp) hsucc

lemma recovery_loop_exhausts {α : Type} (cfg : RecoveryConfig)
    (behav : Nat → Except PyError α) (durs : Nat → ℚ) (jit : Nat → ℚ)
    (hfail : ∀ k, ∃ e, behav k = Except.error e ∧
      (ErrorClassifier.classify_error e).is_retryable = true) :
    ∀ (fuel attempt_num : Nat) (inv : Nat) (now start_time : ℚ)
      (attempts : List RecoveryAttempt) (last_error : Option PyError),
      attempt_num + fuel = cfg.max_retry_attempts + 1 →
      (RecoveryManager.recovery_loop cfg behav durs jit fuel attempt_num none inv now
          start_time attempts last_error).attempts.length = attempts.length + fuel ∧
      (RecoveryManager.recovery_loop cfg behav durs jit fuel attempt_num none inv now
          start_time attempts last_error).success = false ∧
      (RecoveryManager.recovery_loop cfg behav durs jit fuel attempt_num none inv now
          start_time attempts last_error).recovery_strategy = some "retry_exhausted" := by
  intro fuel
  induction fuel with
  | zero =>
    intro attempt_num inv now start_time attempts last_error _
    simp [RecoveryManager.recovery_loop]
  | succ fuel ih =>
    intro attempt_num inv now start_time attempts last_error hsum
    obtain ⟨e, hbe, hretry⟩ := hfail inv
    have hbs : RecoveryManager.breaker_step (none : Option CircuitBreaker) now (behav inv)
        (now + durs inv) = (none, CallResult.failed e) := by
      rw [RecoveryManager.breaker_step.eq_def, hbe]
    by_cases hm : cfg.max_retry_attempts ≤ attempt_num
    · have hf0 : fuel = 0 := by omega
      subst hf0
      simp only [RecoveryManager.recovery_loop, hbs]
      rw [if_pos (Or.inr hm)]
      simp
    · simp only [RecoveryManager.recovery_loop, hbs]
      rw [if_neg (by
        rintro (hl | hr)
        · rw [hretry] at hl
          exact Bool.noConfusion hl
        · exact hm hr)]
      obtain ⟨ih1, ih2, ih3⟩ := ih (attempt_num + 1) (inv + 1)
        (now + durs inv +
          RecoveryManager.calculate_retry_delay cfg attempt_num
            (ErrorClassifier.classify_error e) (jit inv))
        start_time
        (attempts ++ [⟨attempt_num, now + durs inv, some (RaisedError.op_error e), false,
          RecoveryManager.calculate_retry_delay cfg attempt_num
            (ErrorClassifier.classify_error e) (jit inv),
          (ErrorClassifier.classify_error e).recovery_action⟩])
        (some e) (by omega)
      refine ⟨?_, ih2, ih3⟩
      rw [ih1]
      simp only [List.length_append, List.length_cons, List.length_nil]
      omega

lemma execute_first_nonretryable {α : Type} (cfg : RecoveryConfig)
    (behav : Nat → Except PyError α) (durs : Nat → ℚ) (jit : Nat → ℚ)
    (breaker0 : CircuitBreaker) (start_time : ℚ) (e : PyError)
    (hb : behav 0 = Except.error e)
    (hc : (ErrorClassifier.classify_error e).is_retryable = false)
    (hs : breaker0.state = CircuitState.closed)
    (hm : 1 ≤ cfg.max_retry_attempts) :
    (RecoveryManager.execute_with_recovery cfg behav durs jit breaker0 start_time).attempts.length = 1 ∧
    (RecoveryManager.execute_with_recovery cfg behav durs jit breaker0 start_time).success = false ∧
    (RecoveryManager.execute_with_recovery cfg behav durs jit breaker0 start_time).error =
      some (RaisedError.op_error e) ∧
    (RecoveryManager.execute_with_recovery cfg behav durs jit breaker0 start_time).recovery_strategy =
      some "retry_exhausted" := by
  obtain ⟨f, hf⟩ : ∃ f, cfg.max_retry_attempts = f + 1 :=
    ⟨cfg.max_retry_attempts - 1, (Nat.succ_pred_eq_of_pos hm).symm⟩
  have hbs : RecoveryManager.breaker_step
      (if cfg.circuit_breaker_enabled then some breaker0 else none) start_time (behav 0)
      (start_time + durs 0) =
      (if cfg.circuit_breaker_enabled then
          some (({ breaker0 with stats := { breaker0.stats with
            total_requests := breaker0.stats.total_requests + 1 } } :
              CircuitBreaker).record_failure (start_time + durs 0))
        else none,
        CallResult.failed e) := by
    by_cases hcb : cfg.circuit_breaker_enabled
    · rw [if_pos hcb, if_pos hcb]
      simp only [RecoveryManager.breaker_step]
      rw [hb, CircuitBreaker.call_error_of_admitted _ _ _
        (CircuitBreaker.admit_of_not_open breaker0 start_time
          (fun hopen => CircuitState.noConfusion (hs ▸ hopen))) e (start_time + durs 0)]
    · rw [if_neg hcb, if_neg hcb]
      simp only [RecoveryManager.breaker_step]
      rw [hb]
  unfold RecoveryManager.execute_with_recovery
  rw [hf]
  simp only [RecoveryManager.recovery_loop, hbs]
  rw [if_pos (Or.inl hc)]
  simp

/-- Claim C1 (code_bug evaluation): with `failure_threshold = 3` and
`success_threshold = 2`, three failures open the breaker; after the timeout
one successful trial call leaves it HALF_OPEN with one consecutive success
(so `1 ≤ j < success_threshold`); the next recorded failure leaves the
state HALF_OPEN — not OPEN as the claim (and the spec) require — because
`_record_failure` reopens only when the consecutive-failure counter, which
the success just reset to 0, reaches `failure_threshold` again. -/
theorem circuit_breaker_half_open_failure_stays_half_open :
    c1_after_failures.state = CircuitState.open_ ∧
    c1_after_success.state = CircuitState.half_open ∧
    c1_after_success.consecutive_successes = 1 ∧
    c1_final.state = CircuitState.half_open ∧
    c1_final.state ≠ CircuitState.open_ := by
  have hL : c1_after_failures =
      ⟨c1_config, ⟨3, 0, 3, 0, 1, some 0, none, 1⟩, CircuitState.open_, 3, 0, 0⟩ := rfl
  have hadm : c1_after_failures.admission 2 =
      (⟨c1_config, ⟨4, 0, 3, 0, 2, some 0, none, 1⟩, CircuitState.half_open, 3, 0, 2⟩,
        Admission.admitted) :=
    CircuitBreaker.admit_of_open_late _ 2 rfl (by rw [hL]; norm_num [c1_config])
  have hfin : c1_final =
      ⟨c1_config, ⟨5, 1, 4, 0, 2, some 2, some 2, 1⟩, CircuitState.half_open, 1, 0, 2⟩ := by
    unfold c1_final c1_after_success
    rw [CircuitBreaker.call_ok_of_admitted _ _ _ hadm () 2]
    rfl
  have hsucc : c1_after_success =
      ⟨c1_config, ⟨4, 1, 3, 0, 2, some 0, some 2, 1⟩, CircuitState.half_open, 0, 1, 2⟩ := by
    unfold c1_after_success
    rw [CircuitBreaker.call_ok_of_admitted _ _ _ hadm () 2]
    rfl
  exact ⟨rfl, by rw [hsucc], by rw [hsucc], by rw [hfin], by rw [hfin]; decide⟩

/-- Claim C2 counterexample: under `c2cex_config` (`max_retry_attempts = 2`,
circuit breaking enabled with failure threshold 1) an always-failing
retryable operation does NOT end with `retry_exhausted`: the breaker opens
after the first failure and the second attempt is rejected, so the run
ends with `recovery_strategy = "circuit_breaker_blocked"`. -/
theorem retry_exhausted_claim_counterexample :
    c2cex_config.max_retry_attempts = 2 ∧
    (∀ k, ∃ e, c2cex_behav k = Except.error e ∧
      (ErrorClassifier.classify_error e).is_retryable = true) ∧
    c2cex_result.success = false ∧
    c2cex_result.attempts.length = 2 ∧
    c2cex_result.recovery_strategy = some "circuit_breaker_blocked" ∧
    c2cex_result.recovery_strategy ≠ some "retry_exhausted" := by
  have hstep1 : RecoveryManager.breaker_step (some (CircuitBreaker.init c2cex_config.cb_config 0))
      0 (c2cex_behav 0) (0 + c2cex_durs 0) =
      (some c2cex_breaker1, CallResult.failed (PyError.connection_error "refused")) := rfl
  have hstate1 : c2cex_breaker1.state = CircuitState.open_ := rfl
  have hct1 : c2cex_breaker1.stats.current_timeout = 60 := rfl
  have hls1 : c2cex_breaker1.last_state_change = 0 + c2cex_durs 0 := rfl
  have hdelay : RecoveryManager.calculate_retry_delay c2cex_config 1
      (ErrorClassifier.classify_error (PyError.connection_error "refused")) (c2cex_jit 0) = 0 := by
    norm_num [RecoveryManager.calculate_retry_delay, RecoveryManager.pre_jitter_delay,
      c2cex_config, c2cex_jit, ErrorClassifier.classify_error, ErrorClassifier.classify_error_body,
      min_def]
  have hcond2 : (0 + c2cex_durs 0 +
      RecoveryManager.calculate_retry_delay c2cex_config 1
        (ErrorClassifier.classify_error (PyError.connection_error "refused")) (c2cex_jit 0)) -
      c2cex_breaker1.last_state_change < c2cex_breaker1.stats.current_timeout := by
    rw [hls1, hct1, hdelay]
    norm_num [c2cex_durs]
  have hadm2 := CircuitBreaker.admit_of_open_early c2cex_breaker1
    (0 + c2cex_durs 0 +
      RecoveryManager.calculate_retry_delay c2cex_config 1
        (ErrorClassifier.classify_error (PyError.connection_error "refused")) (c2cex_jit 0))
    hstate1 hcond2
  have hstep2 : RecoveryManager.breaker_step (some c2cex_breaker1)
      (0 + c2cex_durs 0 +
        RecoveryManager.calculate_retry_delay c2cex_config 1
          (ErrorClassifier.classify_error (PyError.connection_error "refused")) (c2cex_jit 0))
      (c2cex_behav 1)
      ((0 + c2cex_durs 0 +
        RecoveryManager.calculate_retry_delay c2cex_config 1
          (ErrorClassifier.classify_error (PyError.connection_error "refused")) (c2cex_jit 0)) +
        c2cex_durs 1) =
      (some ((c2cex_breaker1.admission
          (0 + c2cex_durs 0 +
            RecoveryManager.calculate_retry_delay c2cex_config 1
              (ErrorClassifier.classify_error (PyError.connection_error "refused"))
              (c2cex_jit 0))).1),
        CallResult.breaker_open (max 0 (c2cex_breaker1.stats.current_timeout -
          ((0 + c2cex_durs 0 +
            RecoveryManager.calculate_retry_delay c2cex_config 1
              (ErrorClassifier.classify_error (PyError.connection_error "refused"))
              (c2cex_jit 0)) - c2cex_breaker1.last_state_change)))) := by
    rw [RecoveryManager.breaker_step_some,
      CircuitBreaker.call_of_rejected _ _ _ _ hadm2 (c2cex_behav 1) _]
    rw [hadm2]
  have hresult : c2cex_result =
      { success := false
        result := none
        error := some (RaisedError.breaker_open (max 0 (c2cex_breaker1.stats.current_timeout -
          ((0 + c2cex_durs 0 +
            RecoveryManager.calculate_retry_delay c2cex_config 1
              (ErrorClassifier.classify_error (PyError.connection_error "refused"))
              (c2cex_jit 0)) - c2cex_breaker1.last_state_change))))
        attempts := [⟨1, 0 + c2cex_durs 0,
            some (RaisedError.op_error (PyError.connection_error "refused")), false,
            RecoveryManager.calculate_retry_delay c2cex_config 1
              (ErrorClassifier.classify_error (PyError.connection_error "refused")) (c2cex_jit 0),
            (ErrorClassifier.classify_error (PyError.connection_error "refused")).recovery_action⟩,
          ⟨2, (0 + c2cex_durs 0 +
            RecoveryManager.calculate_retry_delay c2cex_config 1
              (ErrorClassifier.classify_error (PyError.connection_error "refused")) (c2cex_jit 0)),
            some (RaisedError.breaker_open (max 0 (c2cex_breaker1.stats.current_timeout -
              ((0 + c2cex_durs 0 +
                RecoveryManager.calculate_retry_delay c2cex_config 1
                  (ErrorClassifier.classify_error (PyError.connection_error "refused"))
                  (c2cex_jit 0)) - c2cex_breaker1.last_state_change)))), false, 0,
            some "circuit_breaker_open"⟩]
        total_duration := (0 + c2cex_durs 0 +
          RecoveryManager.calculate_retry_delay c2cex_config 1
            (ErrorClassifier.classify_error (PyError.connection_error "refused"))
            (c2cex_jit 0)) - 0
        recovery_strategy := some "circuit_breaker_blocked" } := by
    show RecoveryManager.recovery_loop c2cex_config c2cex_behav c2cex_durs c2cex_jit 2 1
      (some (CircuitBreaker.init c2cex_config.cb_config 0)) 0 0 0 [] none = _
    rw [RecoveryManager.recovery_loop_step_failed_retry c2cex_config c2cex_behav c2cex_durs
      c2cex_jit 1 1 _ _ 0 0 0 [] none (PyError.connection_error "refused") hstep1 rfl
      (by norm_num [c2cex_config])]
    rw [RecoveryManager.recovery_loop_step_blocked c2cex_config c2cex_behav c2cex_durs
      c2cex_jit 0 2 _ _ 1 _ 0 _ _ _ hstep2]
    rfl
  refine ⟨rfl, fun k => ⟨PyError.connection_error "refused", rfl, rfl⟩, ?_, ?_, ?_, ?_⟩
  · rw [hresult]
  · rw [hresult]
    rfl
  · rw [hresult]
  · rw [hresult]
    simp

/-- Claim C2 (amended): for every `n ≥ 1` and every `RecoveryConfig` with
`max_retry_attempts = n` and circuit breaking disabled, executing an
operation that raises a retryable error on every invocation makes exactly
`n` attempts and returns `success = false` with
`recovery_strategy = "retry_exhausted"`. -/
theorem execute_with_recovery_retry_exhausted {α : Type} (cfg : RecoveryConfig)
    (behav : Nat → Except PyError α) (durs : Nat → ℚ) (jit : Nat → ℚ)
    (breaker0 : CircuitBreaker) (start_time : ℚ) (n : Nat)
    (_hn : 1 ≤ n) (hmax : cfg.max_retry_attempts = n)
    (hcb : cfg.circuit_breaker_enabled = false)
    (hfail : ∀ k, ∃ e, behav k = Except.error e ∧
      (ErrorClassifier.classify_error e).is_retryable = true) :
    (RecoveryManager.execute_with_recovery cfg behav durs jit breaker0
      start_time).attempts.length = n ∧
    (RecoveryManager.execute_with_recovery cfg behav durs jit breaker0 start_time).success = false ∧
    (RecoveryManager.execute_with_recovery cfg behav durs jit breaker0 start_time).recovery_strategy =
      some "retry_exhausted" := by
  unfold RecoveryManager.execute_with_recovery
  have hcb' : ¬(cfg.circuit_breaker_enabled = true) := by
    rw [hcb]
    exact Bool.false_ne_true
  rw [if_neg hcb', hmax]
  obtain ⟨h1, h2, h3⟩ := recovery_loop_exhausts cfg behav durs jit hfail
    n 1 0 start_time start_time [] none (by omega)
  exact ⟨by rw [h1]; simp, h2, h3⟩

/-- Witness for the amended C2 theorem at `c2_disabled_config` (`n = 2`). -/
theorem execute_with_recovery_retry_exhausted_witness :
    (RecoveryManager.execute_with_recovery c2_disabled_config
      (fun _ => Except.error (PyError.connection_error "refused") : Nat → Except PyError Unit)
      (fun _ => 0) (fun _ => 0)
      (CircuitBreaker.init c2_disabled_config.cb_config 0) 0).attempts.length = 2 ∧
    (RecoveryManager.execute_with_recovery c2_disabled_config
      (fun _ => Except.error (PyError.connection_error "refused") : Nat → Except PyError Unit)
      (fun _ => 0) (fun _ => 0)
      (CircuitBreaker.init c2_disabled_config.cb_config 0) 0).success = false ∧
    (RecoveryManager.execute_with_recovery c2_disabled_config
      (fun _ => Except.error (PyError.connection_error "refused") : Nat → Except PyError Unit)
      (fun _ => 0) (fun _ => 0)
      (CircuitBreaker.init c2_disabled_config.cb_config 0) 0).recovery_strategy =
      some "retry_exhausted" :=
  execute_with_recovery_retry_exhausted c2_disabled_config _ (fun _ => 0) (fun _ => 0)
    (CircuitBreaker.init c2_disabled_config.cb_config 0) 0 2 (by decide) rfl rfl
    (fun _ => ⟨PyError.connection_error "refused", rfl, rfl⟩)

/-- Claim C3: a fresh breaker with `failure_threshold = k ≥ 1` is OPEN
after exactly `k` consecutive recorded failures, and the `(k+1)`-th call,
made before `timeout` seconds have elapsed since opening, is rejected at
admission (raising `CircuitBreakerError`) whatever the wrapped function
would have done — i.e. without invoking it. -/
theorem circuit_breaker_opens_at_failure_threshold
    (cfg : CircuitBreakerConfig) (t0 : ℚ) (τ : Nat → ℚ) (k : Nat)
    (hk : cfg.failure_threshold = k) (h1 : 1 ≤ k) (t : ℚ)
    (ht : t - τ (k - 1) < cfg.timeout) :
    (CircuitBreaker.fail_calls (CircuitBreaker.init cfg t0) τ k).state = CircuitState.open_ ∧
    ((CircuitBreaker.fail_calls (CircuitBreaker.init cfg t0) τ k).admission t).2 =
      Admission.rejected (max 0 (cfg.timeout - (t - τ (k - 1)))) ∧
    (∀ (outcome : Except Unit Unit) (et : ℚ),
      ((CircuitBreaker.fail_calls (CircuitBreaker.init cfg t0) τ k).call t outcome et).2 =
        CallResult.breaker_open (max 0 (cfg.timeout - (t - τ (k - 1))))) := by
  obtain ⟨m, rfl⟩ : ∃ m, k = m + 1 := ⟨k - 1, (Nat.succ_pred_eq_of_pos h1).symm⟩
  obtain ⟨hs, hf, hcfg⟩ := CircuitBreaker.fail_calls_closed cfg t0 τ m
    (by rw [hk]; exact Nat.lt_succ_self m)
  have hstep := @CircuitBreaker.call_failed_of_closed_reach Unit Unit
    (CircuitBreaker.fail_calls (CircuitBreaker.init cfg t0) τ m) (τ m) () hs
    (by rw [hcfg, hf, hk])
  have hB1 : (CircuitBreaker.fail_calls (CircuitBreaker.init cfg t0) τ (m + 1)).state =
      CircuitState.open_ := by
    show ((CircuitBreaker.fail_calls (CircuitBreaker.init cfg t0) τ m).call (τ m)
      (Except.error () : Except Unit Unit) (τ m)).1.state = CircuitState.open_
    rw [hstep]
  have hB2 : (CircuitBreaker.fail_calls (CircuitBreaker.init cfg t0) τ (m + 1)).last_state_change =
      τ m := by
    show ((CircuitBreaker.fail_calls (CircuitBreaker.init cfg t0) τ m).call (τ m)
      (Except.error () : Except Unit Unit) (τ m)).1.last_state_change = τ m
    rw [hstep]
  have hB3 : (CircuitBreaker.fail_calls (CircuitBreaker.init cfg t0) τ (m + 1)).stats.current_timeout =
      cfg.timeout := by
    show ((CircuitBreaker.fail_calls (CircuitBreaker.init cfg t0) τ m).call (τ m)
      (Except.error () : Except Unit Unit) (τ m)).1.stats.current_timeout = cfg.timeout
    rw [hstep]
    show (CircuitBreaker.fail_calls (CircuitBreaker.init cfg t0) τ m).config.timeout = cfg.timeout
    rw [hcfg]
  have ht' : t - (CircuitBreaker.fail_calls (CircuitBreaker.init cfg t0) τ (m + 1)).last_state_change <
      (CircuitBreaker.fail_calls (CircuitBreaker.init cfg t0) τ (m + 1)).stats.current_timeout := by
    rw [hB2, hB3]
    exact ht
  have hadm := CircuitBreaker.admit_of_open_early _ t hB1 ht'
  refine ⟨hB1, ?_, ?_⟩
  · rw [hadm, hB3, hB2]
    rfl
  · intro outcome et
    rw [CircuitBreaker.call_of_rejected _ _ _ _ hadm outcome et, hB3, hB2]
    rfl

/-- Witness for C3 at `failure_threshold = 1`, with the rejected call at time 1. -/
theorem circuit_breaker_opens_witness :
    (CircuitBreaker.fail_calls (CircuitBreaker.init c3_config 0) (fun _ => 0) 1).state =
      CircuitState.open_ ∧
    ((CircuitBreaker.fail_calls (CircuitBreaker.init c3_config 0) (fun _ => 0) 1).admission 1).2 =
      Admission.rejected (max 0 (c3_config.timeout - (1 - 0))) ∧
    (∀ (outcome : Except Unit Unit) (et : ℚ),
      ((CircuitBreaker.fail_calls (CircuitBreaker.init c3_config 0) (fun _ => 0) 1).call 1
        outcome et).2 = CallResult.breaker_open (max 0 (c3_config.timeout - (1 - 0)))) :=
  circuit_breaker_opens_at_failure_threshold c3_config 0 (fun _ => 0) 1 rfl (by decide) 1
    (by norm_num [c3_config])

/-- Claim C4: for a breaker in OPEN state, a call strictly before
`current_timeout` seconds have elapsed since entering OPEN is rejected
without invoking the wrapped function, increments `rejected_requests` and
carries `retry_after = max 0 (current_timeout - elapsed)`; a call at or
after the timeout first transitions the breaker to HALF_OPEN (resetting
the consecutive-success counter) and is admitted. -/
theorem circuit_breaker_open_admission (cb : CircuitBreaker) (now : ℚ)
    (hs : cb.state = CircuitState.open_) :
    (now - cb.last_state_change < cb.stats.current_timeout →
      (cb.admission now).2 =
        Admission.rejected (max 0 (cb.stats.current_timeout - (now - cb.last_state_change))) ∧
      (cb.admission now).1.stats.rejected_requests = cb.stats.rejected_requests + 1 ∧
      (cb.admission now).1.state = CircuitState.open_ ∧
      (∀ (outcome : Except Unit Unit) (et : ℚ),
        (cb.call now outcome et).2 =
          CallResult.breaker_open (max 0 (cb.stats.current_timeout - (now - cb.last_state_change))))) ∧
    (cb.stats.current_timeout ≤ now - cb.last_state_change →
      (cb.admission now).2 = Admission.admitted ∧
      (cb.admission now).1.state = CircuitState.half_open ∧
      (cb.admission now).1.consecutive_successes = 0) := by
  constructor
  · intro h
    have hadm := CircuitBreaker.admit_of_open_early cb now hs h
    refine ⟨by rw [hadm], by rw [hadm], by rw [hadm]; exact hs, ?_⟩
    intro outcome et
    rw [CircuitBreaker.call_of_rejected _ _ _ _ hadm outcome et]
  · intro h
    have hadm := CircuitBreaker.admit_of_open_late cb now hs h
    exact ⟨by rw [hadm], by rw [hadm], by rw [hadm]⟩

/-- Witness for C4 on `c4_breaker` at times 1 (rejected) and 61 (admitted). -/
theorem circuit_breaker_open_admission_witness :
    (((c4_breaker.admission 1).2 =
        Admission.rejected (max 0 (c4_breaker.stats.current_timeout -
          (1 - c4_breaker.last_state_change))) ∧
      (c4_breaker.admission 1).1.stats.rejected_requests = c4_breaker.stats.rejected_requests + 1 ∧
      (c4_breaker.admission 1).1.state = CircuitState.open_ ∧
      (∀ (outcome : Except Unit Unit) (et : ℚ),
        (c4_breaker.call 1 outcome et).2 =
          CallResult.breaker_open (max 0 (c4_breaker.stats.current_timeout -
            (1 - c4_breaker.last_state_change))))) ∧
    ((c4_breaker.admission 61).2 = Admission.admitted ∧
      (c4_breaker.admission 61).1.state = CircuitState.half_open ∧
      (c4_breaker.admission 61).1.consecutive_successes = 0)) :=
  ⟨(circuit_breaker_open_admission c4_breaker 1 rfl).1 (by norm_num [c4_breaker]),
    (circuit_breaker_open_admission c4_breaker 61 rfl).2 (by norm_num [c4_breaker])⟩

/-- Claim C5: for every attempt number `a ≥ 1`, the pre-jitter delay equals
`min (base * multiplier ^ (a - 1)) max_delay` with exponential backoff
enabled and `min (base * multiplier * a) max_delay` with it disabled, and
is always `≤ max_delay`; with jitter enabled the returned delay is
`max 0.1 (delay + j)` for the drawn jitter `j`, and for any draw inside
`[-delay * jitter_factor, +delay * jitter_factor]` such a `j` in that
interval exists. -/
theorem calculate_retry_delay_spec (cfg : RecoveryConfig) (a : Nat)
    (c : ErrorClassification) (u : ℚ) (_ha : 1 ≤ a) :
    (cfg.enable_exponential_backoff = true →
      RecoveryManager.pre_jitter_delay cfg a c =
        min (cfg.base_retry_delay * c.retry_delay_multiplier ^ (a - 1)) cfg.max_retry_delay) ∧
    (cfg.enable_exponential_backoff = false →
      RecoveryManager.pre_jitter_delay cfg a c =
        min (cfg.base_retry_delay * c.retry_delay_multiplier * (a : ℚ)) cfg.max_retry_delay) ∧
    RecoveryManager.pre_jitter_delay cfg a c ≤ cfg.max_retry_delay ∧
    (cfg.enable_jitter = true →
      RecoveryManager.calculate_retry_delay cfg a c u =
        max (1/10) (RecoveryManager.pre_jitter_delay cfg a c + u) ∧
      (-(RecoveryManager.pre_jitter_delay cfg a c * cfg.jitter_factor) ≤ u →
        u ≤ RecoveryManager.pre_jitter_delay cfg a c * cfg.jitter_factor →
        ∃ j, -(RecoveryManager.pre_jitter_delay cfg a c * cfg.jitter_factor) ≤ j ∧
          j ≤ RecoveryManager.pre_jitter_delay cfg a c * cfg.jitter_factor ∧
          RecoveryManager.calculate_retry_delay cfg a c u =
            max (1/10) (RecoveryManager.pre_jitter_delay cfg a c + j))) := by
  refine ⟨?_, ?_, ?_, ?_⟩
  · intro h
    simp only [RecoveryManager.pre_jitter_delay, h, if_true]
  · intro h
    simp only [RecoveryManager.pre_jitter_delay, h, Bool.false_eq_true, if_false]
  · exact min_le_right _ _
  · intro h
    have heq : RecoveryManager.calculate_retry_delay cfg a c u =
        max (1/10) (RecoveryManager.pre_jitter_delay cfg a c + u) := by
      simp only [RecoveryManager.calculate_retry_delay, h, if_true]
    exact ⟨heq, fun h1 h2 => ⟨u, h1, h2, heq⟩⟩

/-- Witness for C5 at the default config, attempt 2, a network classification. -/
theorem calculate_retry_delay_spec_witness :
    1 ≤ 2 ∧
    (RecoveryConfig.default.enable_exponential_backoff = true →
      RecoveryManager.pre_jitter_delay RecoveryConfig.default 2
          (ErrorClassifier.classify_error (PyError.connection_error "x")) =
        min (RecoveryConfig.default.base_retry_delay *
          (ErrorClassifier.classify_error (PyError.connection_error "x")).retry_delay_multiplier ^
            (2 - 1)) RecoveryConfig.default.max_retry_delay) ∧
    RecoveryManager.pre_jitter_delay RecoveryConfig.default 2
        (ErrorClassifier.classify_error (PyError.connection_error "x")) ≤
      RecoveryConfig.default.max_retry_delay :=
  ⟨by decide,
    (calculate_retry_delay_spec RecoveryConfig.default 2
      (ErrorClassifier.classify_error (PyError.connection_error "x")) 0 (by decide)).1,
    (calculate_retry_delay_spec RecoveryConfig.default 2
      (ErrorClassifier.classify_error (PyError.connection_error "x")) 0 (by decide)).2.2.1⟩

/-- Claim C6: every terminating `execute_with_recovery` run returns a
result with `attempts.length ≤ max_retry_attempts`, and exactly one
attempt has `success = true` iff the result has `success = true` (when the
result has `success = false`, no attempt has `success = true`). -/
theorem execute_with_recovery_attempts_invariant {α : Type} (cfg : RecoveryConfig)
    (behav : Nat → Except PyError α) (durs : Nat → ℚ) (jit : Nat → ℚ)
    (breaker0 : CircuitBreaker) (start_time : ℚ) :
    (RecoveryManager.execute_with_recovery cfg behav durs jit breaker0 start_time).attempts.length ≤
      cfg.max_retry_attempts ∧
    ((RecoveryManager.execute_with_recovery cfg behav durs jit breaker0 start_time).attempts.countP
        (fun r => r.success) = 1 ↔
      (RecoveryManager.execute_with_recovery cfg behav durs jit breaker0 start_time).success = true) ∧
    ((RecoveryManager.execute_with_recovery cfg behav durs jit breaker0 start_time).success = false →
      (RecoveryManager.execute_with_recovery cfg behav durs jit breaker0 start_time).attempts.countP
        (fun r => r.success) = 0) := by
  obtain ⟨h1, h2⟩ := recovery_loop_attempts_spec cfg behav durs jit cfg.max_retry_attempts 1
    (if cfg.circuit_breaker_enabled then some breaker0 else none) 0 start_time start_time [] none
  unfold RecoveryManager.execute_with_recovery
  simp only [List.countP_nil, List.length_nil, Nat.zero_add] at h1 h2
  refine ⟨h1, ?_, ?_⟩
  · rw [h2]
    by_cases hs : (RecoveryManager.recovery_loop cfg behav durs jit cfg.max_retry_attempts 1
        (if cfg.circuit_breaker_enabled then some breaker0 else none) 0 start_time start_time
        [] none).success = true
    · simp [hs]
    · simp [hs]
  · intro hs
    rw [h2, hs]
    simp

/-- Claim C7: `classify_error` is total — whenever the classification body
succeeds its value is returned unchanged, and whenever the body itself
fails (a malformed `ClientError` response) the safe default is returned:
category Unknown, severity Medium, non-retryable,
`recovery_action = "log_and_skip"`. -/
theorem classify_error_total_and_safe_default (e : PyError) :
    (∀ c, ErrorClassifier.classify_error_body e = Except.ok c →
      ErrorClassifier.classify_error e = c) ∧
    (ErrorClassifier.classify_error_body e = Except.error () →
      ErrorClassifier.classify_error e =
        ⟨ErrorCategory.unknown, ErrorSeverity.medium, false, false, 1, none,
          some "log_and_skip", some "Unclassified error occurred"⟩) := by
  constructor
  · intro c h
    unfold ErrorClassifier.classify_error
    rw [h]
  · intro h
    unfold ErrorClassifier.classify_error
    rw [h]
    rfl

/-- Witness for C7: the malformed response yields the safe default; a BotoCoreError classifies through the body. -/
theorem classify_error_total_and_safe_default_witness :
    ErrorClassifier.classify_error (PyError.client_error ClientResponse.malformed) =
      ⟨ErrorCategory.unknown, ErrorSeverity.medium, false, false, 1, none,
        some "log_and_skip", some "Unclassified error occurred"⟩ ∧
    ErrorClassifier.classify_error (PyError.botocore_error "EndpointConnectionError") =
      ⟨ErrorCategory.network, ErrorSeverity.medium, true, false, 1, some 3,
        some "retry", some "Network error: EndpointConnectionError"⟩ :=
  ⟨(classify_error_total_and_safe_default (PyError.client_error ClientResponse.malformed)).2 rfl,
    (classify_error_total_and_safe_default (PyError.botocore_error "EndpointConnectionError")).1
      _ rfl⟩

/-- Claim C8: whenever `execute_with_recovery` returns `success = false`
its `error` field carries the last raised error (the error recorded on the
final attempt); in particular an operation whose first invocation raises a
non-retryable error yields exactly 1 attempt, `success = false`, and the
original error in the `error` field. -/
theorem execute_with_recovery_error_propagation {α : Type} :
    (∀ (cfg : RecoveryConfig) (behav : Nat → Except PyError α) (durs jit : Nat → ℚ)
      (breaker0 : CircuitBreaker) (start_time : ℚ),
      (RecoveryManager.execute_with_recovery cfg behav durs jit breaker0 start_time).success = false →
      (RecoveryManager.execute_with_recovery cfg behav durs jit breaker0 start_time).error =
        (RecoveryManager.execute_with_recovery cfg behav durs jit breaker0
          start_time).attempts.getLast?.bind (fun r => r.error)) ∧
    (∀ (cfg : RecoveryConfig) (behav : Nat → Except PyError α) (durs jit : Nat → ℚ)
      (breaker0 : CircuitBreaker) (start_time : ℚ) (e : PyError),
      behav 0 = Except.error e →
      (ErrorClassifier.classify_error e).is_retryable = false →
      breaker0.state = CircuitState.closed →
      1 ≤ cfg.max_retry_attempts →
      (RecoveryManager.execute_with_recovery cfg behav durs jit breaker0
        start_time).attempts.length = 1 ∧
      (RecoveryManager.execute_with_recovery cfg behav durs jit breaker0 start_time).success = false ∧
      (RecoveryManager.execute_with_recovery cfg behav durs jit breaker0 start_time).error =
        some (RaisedError.op_error e)) := by
  constructor
  · intro cfg behav durs jit breaker0 start_time hsucc
    exact recovery_loop_error_spec cfg behav durs jit cfg.max_retry_attempts 1
      (if cfg.circuit_breaker_enabled then some breaker0 else none) 0 start_time start_time
      [] none (by simp) hsucc
  · intro cfg behav durs jit breaker0 start_time e hb hc hs hm
    obtain ⟨h1, h2, h3, _⟩ :=
      execute_first_nonretryable cfg behav durs jit breaker0 start_time e hb hc hs hm
    exact ⟨h1, h2, h3⟩

/-- Witness for C8: a first-attempt `ValueError` gives one attempt carrying the original error. -/
theorem execute_with_recovery_error_propagation_witness :
    (RecoveryManager.execute_with_recovery RecoveryConfig.default
      (fun _ => Except.error (PyError.value_error "bad") : Nat → Except PyError Unit)
      (fun _ => 0) (fun _ => 0)
      (CircuitBreaker.init RecoveryConfig.default.cb_config 0) 0).attempts.length = 1 ∧
    (RecoveryManager.execute_with_recovery RecoveryConfig.default
      (fun _ => Except.error (PyError.value_error "bad") : Nat → Except PyError Unit)
      (fun _ => 0) (fun _ => 0)
      (CircuitBreaker.init RecoveryConfig.default.cb_config 0) 0).success = false ∧
    (RecoveryManager.execute_with_recovery RecoveryConfig.default
      (fun _ => Except.error (PyError.value_error "bad") : Nat → Except PyError Unit)
      (fun _ => 0) (fun _ => 0)
      (CircuitBreaker.init RecoveryConfig.default.cb_config 0) 0).error =
      some (RaisedError.op_error (PyError.value_error "bad")) :=
  (execute_with_recovery_error_propagation (α := Unit)).2 RecoveryConfig.default
    _ (fun _ => 0) (fun _ => 0)
    (CircuitBreaker.init RecoveryConfig.default.cb_config 0) 0
    (PyError.value_error "bad") rfl rfl rfl (by decide)

/-- Claim C9 counterexample: on an empty registry every breaker is
(vacuously) OPEN, yet `get_health_status` reports `"healthy"`, not
`"unhealthy"` — the claim's `healthy` and `unhealthy` clauses contradict
each other there, and the code takes the `healthy` branch. -/
theorem get_health_status_empty_counterexample :
    CircuitBreakerManager.get_health_status [] = "healthy" ∧
    (∀ s ∈ ([] : List CircuitState), s = CircuitState.open_) ∧
    CircuitBreakerManager.get_health_status [] ≠ "unhealthy" :=
  ⟨rfl, fun s hs => absurd hs (List.not_mem_nil s), by decide⟩

/-- Claim C9 (amended): the aggregate health is `"healthy"` when no breaker
is OPEN or HALF_OPEN, `"recovering"` when none is OPEN but at least one is
HALF_OPEN, `"degraded"` when at least one but not all breakers are OPEN,
and `"unhealthy"` when there is at least one breaker and all are OPEN. -/
theorem get_health_status_aggregation (states : List CircuitState) :
    ((∀ s ∈ states, s ≠ CircuitState.open_ ∧ s ≠ CircuitState.half_open) →
      CircuitBreakerManager.get_health_status states = "healthy") ∧
    ((∀ s ∈ states, s ≠ CircuitState.open_) → (∃ s ∈ states, s = CircuitState.half_open) →
      CircuitBreakerManager.get_health_status states = "recovering") ∧
    ((∃ s ∈ states, s = CircuitState.open_) → (∃ s ∈ states, s ≠ CircuitState.open_) →
      CircuitBreakerManager.get_health_status states = "degraded") ∧
    (states ≠ [] → (∀ s ∈ states, s = CircuitState.open_) →
      CircuitBreakerManager.get_health_status states = "unhealthy") := by
  refine ⟨?_, ?_, ?_, ?_⟩
  · intro h
    have ho : states.countP (fun s => decide (s = CircuitState.open_)) = 0 :=
      List.countP_eq_zero.mpr (fun a ha => by simpa using (h a ha).1)
    have hh : states.countP (fun s => decide (s = CircuitState.half_open)) = 0 :=
      List.countP_eq_zero.mpr (fun a ha => by simpa using (h a ha).2)
    simp only [CircuitBreakerManager.get_health_status, ho, hh]
    norm_num
  · intro h hex
    have ho : states.countP (fun s => decide (s = CircuitState.open_)) = 0 :=
      List.countP_eq_zero.mpr (fun a ha => by simpa using h a ha)
    have hh : 0 < states.countP (fun s => decide (s = CircuitState.half_open)) := by
      obtain ⟨s, hs, hshalf⟩ := hex
      exact List.countP_pos_iff.mpr ⟨s, hs, by simpa using hshalf⟩
    simp only [CircuitBreakerManager.get_health_status, ho]
    rw [if_neg (lt_irrefl 0), if_pos hh]
  · intro hex hnot
    have ho : 0 < states.countP (fun s => decide (s = CircuitState.open_)) := by
      obtain ⟨s, hs, hsopen⟩ := hex
      exact List.countP_pos_iff.mpr ⟨s, hs, by simpa using hsopen⟩
    have hlt : states.countP (fun s => decide (s = CircuitState.open_)) < states.length := by
      rcases Nat.lt_or_ge (states.countP (fun s => decide (s = CircuitState.open_)))
        states.length with h | h
      · exact h
      · exfalso
        have heq : states.countP (fun s => decide (s = CircuitState.open_)) = states.length :=
          le_antisymm (List.countP_le_length _) h
        obtain ⟨s, hs, hsnot⟩ := hnot
        have := List.countP_eq_length.mp heq s hs
        exact hsnot (by simpa using this)
    simp only [CircuitBreakerManager.get_health_status]
    rw [if_pos ho, if_pos hlt]
  · intro hne hall
    have heq : states.countP (fun s => decide (s = CircuitState.open_)) = states.length :=
      List.countP_eq_length.mpr (fun a ha => by simpa using hall a ha)
    have hpos : 0 < states.countP (fun s => decide (s = CircuitState.open_)) := by
      rw [heq]
      exact List.length_pos.mpr hne
    simp only [CircuitBreakerManager.get_health_status]
    rw [if_pos hpos, if_neg (by rw [heq]; exact lt_irrefl _)]

/-- Witness for the amended C9 theorem on four concrete registries. -/
theorem get_health_status_aggregation_witness :
    CircuitBreakerManager.get_health_status [CircuitState.closed] = "healthy" ∧
    CircuitBreakerManager.get_health_status [CircuitState.open_] = "unhealthy" ∧
    CircuitBreakerManager.get_health_status [CircuitState.open_, CircuitState.closed] =
      "degraded" ∧
    CircuitBreakerManager.get_health_status [CircuitState.half_open] = "recovering" :=
  ⟨(get_health_status_aggregation [CircuitState.closed]).1 (by decide),
    (get_health_status_aggregation [CircuitState.open_]).2.2.2 (by decide) (by decide),
    (get_health_status_aggregation [CircuitState.open_, CircuitState.closed]).2.2.1
      ⟨CircuitState.open_, by decide, rfl⟩ ⟨CircuitState.closed, by decide, by decide⟩,
    (get_health_status_aggregation [CircuitState.half_open]).2.1 (by decide)
      ⟨CircuitState.half_open, by decide, rfl⟩⟩

/-- Claim C10: every exception that is not a `ClientError`, `BotoCoreError`,
`ConnectionError`, `TimeoutError` or `ValueError` is classified as
Unknown / Medium / non-retryable / no circuit break /
`recovery_action = "log_and_skip"`, and consequently `execute_with_recovery`
makes exactly one attempt for an operation raising such an exception. -/
theorem classify_unknown_defaults_single_attempt (tn msg : String) :
    ErrorClassifier.classify_error (PyError.other_error tn msg) =
      ⟨ErrorCategory.unknown, ErrorSeverity.medium, false, false, 1, none,
        some "log_and_skip", some ("Unknown error: " ++ tn)⟩ ∧
    (∀ (α : Type) (cfg : RecoveryConfig) (behav : Nat → Except PyError α)
      (durs jit : Nat → ℚ) (breaker0 : CircuitBreaker) (start_time : ℚ),
      behav 0 = Except.error (PyError.other_error tn msg) →
      breaker0.state = CircuitState.closed →
      1 ≤ cfg.max_retry_attempts →
      (RecoveryManager.execute_with_recovery cfg behav durs jit breaker0
        start_time).attempts.length = 1 ∧
      (RecoveryManager.execute_with_recovery cfg behav durs jit breaker0 start_time).success =
        false) := by
  refine ⟨rfl, ?_⟩
  intro α cfg behav durs jit breaker0 start_time hb hs hm
  obtain ⟨h1, h2, _, _⟩ :=
    execute_first_nonretryable cfg behav durs jit breaker0 start_time _ hb rfl hs hm
  exact ⟨h1, h2⟩

/-- Witness for C10: an unknown `RuntimeError`-style exception gives one attempt. -/
theorem classify_unknown_defaults_single_attempt_witness :
    (RecoveryManager.execute_with_recovery RecoveryConfig.default
      (fun _ => Except.error (PyError.other_error "RuntimeError" "boom") :
        Nat → Except PyError Unit)
      (fun _ => 0) (fun _ => 0)
      (CircuitBreaker.init RecoveryConfig.default.cb_config 0) 0).attempts.length = 1 ∧
    (RecoveryManager.execute_with_recovery RecoveryConfig.default
      (fun _ => Except.error (PyError.other_error "RuntimeError" "boom") :
        Nat → Except PyError Unit)
      (fun _ => 0) (fun _ => 0)
      (CircuitBreaker.init RecoveryConfig.default.cb_config 0) 0).success = false :=
  (classify_unknown_defaults_single_attempt "RuntimeError" "boom").2 Unit
    RecoveryConfig.default _ (fun _ => 0) (fun _ => 0)
    (CircuitBreaker.init RecoveryConfig.default.cb_config 0) 0 rfl rfl (by decide)
